import Mathlib

/-!
Verification of the MedusaXDimg bot against its specification.

Shallow embedding of the Python sources:
- `infip_provider.py` (`MedusaXDImageGenerator`: tables, `_make_request_with_retry`,
  `generate_images`),
- `database.py` (`check_rate_limit`),
- `commands.py` (`_check_user_permissions`, `_parse_generation_options`,
  `generate_command`),
- `main.py` (`_check_user_permissions`, `flux_command` / `_handle_generation`),
- `config.py` (`DEFAULT_MODEL`).

The HTTP transport is modelled as a function from (payload, call index) to the
outcome of that HTTP call; time, logging and message delivery are not modelled.
Python `ValueError` is `GenError.validationError` and `RuntimeError` is
`GenError.runtimeError`; the spec taxonomy maps onto these via the message
strings produced by the source.
-/

namespace MedusaXD

/-- One entry of the `data` array of an upstream JSON response, as the code
probes it: an optional `url` field (`"url" in item` is `url.isSome`, the Python
truthiness of `item["url"]` is `url ≠ some ""`). -/
structure RespItem where
  url : Option String
deriving Repr, DecidableEq

/-- A parsed upstream 200-response body as the code probes it: optional
`created` field and optional `data` array.  A missing `data` field, an empty
`data` array and a falsy (empty) body all collapse to `data = none` or
`data = some []`, which the retry loop treats identically ("empty response"). -/
structure ApiResponse where
  created : Option Int
  data : Option (List RespItem)
deriving Repr, DecidableEq

/-- The body of a 400 error response, as probed by the `status_code == 400`
branch of `_make_request_with_retry`: `e.response.json()` either raises
(`notJson`), or parses with an `"error"` key carrying a message
(`jsonWithError`), or parses without an `"error"` key (`jsonNoError`). -/
inductive ErrorBody where
  | notJson
  | jsonWithError (msg : String)
  | jsonNoError
deriving Repr, DecidableEq

/-- Outcome of one HTTP call, covering the exception classes the retry loop
distinguishes: a 200 JSON response, `requests.exceptions.Timeout`,
`requests.exceptions.ConnectionError`, or `requests.exceptions.HTTPError`
raised by `raise_for_status` with the given status code and body. -/
inductive HttpOutcome where
  | ok (resp : ApiResponse)
  | timeout
  | connError
  | httpError (status : Nat) (body : ErrorBody)
deriving Repr, DecidableEq

/-- Errors raised by the client: Python `ValueError` (the spec's
ValidationError) and `RuntimeError` (the spec's UpstreamUnavailable /
UpstreamRejected / MalformedResponse, distinguished by message). -/
inductive GenError where
  | validationError (msg : String)
  | runtimeError (msg : String)
deriving Repr, DecidableEq

/-- Loop body of `_make_request_with_retry` (infip_provider.py lines 144-224).
`remaining` counts loop iterations still allowed (initially `max_retries`), so
the Python `attempt == max_retries - 1` test is `remaining = 0` after the
current iteration; `calls` counts HTTP calls made so far and indexes the
transport.  Backoff sleeps are not modelled (they do not affect call counts or
results).  Returns the result together with the total number of HTTP calls. -/
def retryLoop (transport : Nat → HttpOutcome) :
    Nat → Nat → Except GenError ApiResponse × Nat
  | 0, calls => (.error (.runtimeError "Failed to generate image after maximum retries"), calls)
  | remaining + 1, calls =>
    let isLast := remaining = 0
    match transport calls with
    | .ok resp =>
      match resp.data with
      | some (_ :: _) => (.ok resp, calls + 1)
      | _ =>
        if isLast then (.error (.runtimeError "API returned empty response"), calls + 1)
        else retryLoop transport remaining (calls + 1)
    | .timeout =>
      if isLast then (.error (.runtimeError "Request timed out after maximum retries"), calls + 1)
      else retryLoop transport remaining (calls + 1)
    | .connError =>
      if isLast then (.error (.runtimeError "Failed to connect to image generation service"), calls + 1)
      else retryLoop transport remaining (calls + 1)
    | .httpError status body =>
      if status = 400 then
        -- the inner `raise ValueError("API Error: ...")` is itself caught by
        -- `except (ValueError, KeyError)` and replaced by the generic message;
        -- a JSON body without an "error" key raises nothing, so the outer
        -- `for` loop simply continues with the next attempt
        match body with
        | .jsonNoError => retryLoop transport remaining (calls + 1)
        | _ => (.error (.validationError "Invalid request parameters - check your prompt and options"), calls + 1)
      else if status = 401 then
        (.error (.runtimeError "API authentication failed"), calls + 1)
      else if status = 403 then
        (.error (.runtimeError "API access forbidden - check permissions"), calls + 1)
      else if status = 429 then
        if isLast then (.error (.runtimeError "Rate limit exceeded - please try again later"), calls + 1)
        else retryLoop transport remaining (calls + 1)
      else if 500 ≤ status then
        if isLast then
          (.error (.runtimeError ("Server error (" ++ toString status ++ ") - service temporarily unavailable")), calls + 1)
        else retryLoop transport remaining (calls + 1)
      else
        (.error (.runtimeError ("HTTP error " ++ toString status)), calls + 1)

/-- `_make_request_with_retry` of infip_provider.py: run the retry loop for
`max_retries` attempts, starting with zero HTTP calls made. -/
def make_request_with_retry (transport : Nat → HttpOutcome) (max_retries : Nat) :
    Except GenError ApiResponse × Nat :=
  retryLoop transport max_retries 0

/-- `MedusaXDImageGenerator.AVAILABLE_MODELS`. -/
def AVAILABLE_MODELS : List String := ["flux", "turbo", "gptimage"]

/-- `MedusaXDImageGenerator.ASPECT_RATIOS` (dict as association list). -/
def ASPECT_RATIOS : List (String × String) :=
  [("landscape", "16:9"), ("portrait", "9:16"), ("square", "1:1"),
   ("photo", "4:3"), ("classic", "3:2"), ("wide", "21:9"),
   ("golden", "1.618:1"), ("cinema", "2.35:1"), ("poster", "3:4"),
   ("instagram", "1:1"), ("story", "9:16"), ("cover", "16:9"), ("twitter", "16:9"),
   ("a4", "297:210"), ("letter", "11:8.5"),
   ("imax", "1.43:1"), ("ultrawide", "32:9")]

/-- `MedusaXDImageGenerator.SIZE_MAPPING` (dict as association list). -/
def SIZE_MAPPING : List (String × String) :=
  [("landscape", "1344x768"), ("portrait", "768x1344"), ("square", "1024x1024"),
   ("photo", "1024x768"), ("classic", "1024x683"), ("wide", "1344x576"),
   ("golden", "1024x633"), ("cinema", "1344x572"), ("poster", "768x1024"),
   ("instagram", "1024x1024"), ("story", "768x1344"), ("cover", "1344x768"), ("twitter", "1344x768"),
   ("a4", "1024x727"), ("letter", "1024x791"),
   ("imax", "1024x716"), ("ultrawide", "1344x384")]

/-- `MedusaXDImageGenerator.STYLE_MAPPING` (dict as association list). -/
def STYLE_MAPPING : List (String × String) :=
  [("realistic", "realistic"), ("photographic", "photographic"), ("artistic", "artistic"),
   ("anime", "anime"), ("cartoon", "cartoon"), ("cinematic", "cinematic"),
   ("fantasy", "fantasy"), ("cyberpunk", "cyberpunk"), ("oil_painting", "oil painting"),
   ("watercolor", "watercolor"), ("sketch", "sketch"), ("digital_art", "digital art")]

/-- The JSON payload `generate_images` posts upstream (infip_provider.py
lines 305-317).  `n` is an `Int` because Python `num_images` is a signed int. -/
structure Payload where
  prompt : String
  model : String
  n : Int
  size : String
  response_format : String
  user : String
  style : String
  aspect_ratio : String
  timeout : Nat
  image_format : String
  seed : Nat
deriving Repr, DecidableEq

/-- Python `str.strip()`: drop whitespace from both ends (computed on the
character list so that it evaluates by kernel reduction). -/
def pyStrip (s : String) : String :=
  String.mk (((s.toList.dropWhile (fun c => c.isWhitespace)).reverse.dropWhile
    (fun c => c.isWhitespace)).reverse)

/-- The aspect-ratio fallback of `generate_images` lines 280-282: an unknown
key is replaced by `"landscape"`. -/
def resolveAspect (aspect_ratio : String) : String :=
  if (ASPECT_RATIOS.lookup aspect_ratio).isSome then aspect_ratio else "landscape"

/-- Payload construction of `generate_images` (lines 280-317, the part after
validation): aspect fallback, prompt strip and 2000-char truncation, size and
ratio-string lookups, style lookup defaulting to `"realistic"`, seed defaulting
to the injected random draw `seedDraw` when absent.  The `""` default on the
ratio lookup is unreachable (the resolved key is always in the table); the
source indexes the dict directly there. -/
def buildPayload (prompt model : String) (num_images : Int) (aspect_ratio : String)
    (seed : Option Nat) (timeout : Nat) (style : String) (seedDraw : Nat) : Payload :=
  let ar := resolveAspect aspect_ratio
  let p0 := pyStrip prompt
  let p := if p0.length > 2000 then String.mk (p0.toList.take 2000) else p0
  { prompt := p
    model := model
    n := num_images
    size := (SIZE_MAPPING.lookup ar).getD "1344x768"
    response_format := "url"
    user := "medusaxd-bot"
    style := (STYLE_MAPPING.lookup style).getD "realistic"
    aspect_ratio := (ASPECT_RATIOS.lookup ar).getD ""
    timeout := timeout
    image_format := "png"
    seed := seed.getD seedDraw }

/-- `ImageData` of infip_provider.py. -/
structure ImageData where
  url : Option String
  b64_json : Option String
deriving Repr, DecidableEq

/-- `ImageResponse` of infip_provider.py. -/
structure ImageResponse where
  created : Int
  data : List ImageData
deriving Repr, DecidableEq

/-- Response processing of `generate_images` (lines 329-340): keep only items
whose `url` field is present and non-empty; if none survive raise
`RuntimeError("No valid images in API response")` (the spec's
MalformedResponse); otherwise wrap them, with `created` defaulting to the
current time `now`. -/
def processResult (r : Except GenError ApiResponse × Nat) (now : Int) :
    Except GenError ImageResponse × Nat :=
  match r with
  | (.error e, calls) => (.error e, calls)
  | (.ok result, calls) =>
    let result_data := (result.data.getD []).filter (fun item => item.url.getD "" != "")
    if result_data.isEmpty then
      (.error (.runtimeError "No valid images in API response"), calls)
    else
      (.ok { created := result.created.getD now
             data := result_data.map (fun item => { url := item.url, b64_json := none }) }, calls)

/-- Error message of the model validation in `generate_images` line 275
(`self.AVAILABLE_MODELS` renders as the Python list literal). -/
def modelNotSupportedMsg (model : String) : String :=
  "Model '" ++ model ++ "' not supported. Available models: ['flux', 'turbo', 'gptimage']"

/-- `MedusaXDImageGenerator.generate_images` (infip_provider.py lines 244-352).
Validation in source order: model, image count, prompt (the aspect-ratio
fallback between the count and prompt checks cannot fail and is folded into
`buildPayload`); then `_make_request_with_retry` with `max_retries=3` on the
built payload, then response processing.  The transport maps (payload, call
index) to that HTTP call's outcome; `seedDraw` is the random seed drawn when
`seed` is absent and `now` the current time used for a missing `created`
field.  Returns the result together with the number of HTTP calls made. -/
def generate_images (transport : Payload → Nat → HttpOutcome) (prompt model : String)
    (num_images : Int) (aspect_ratio : String) (seed : Option Nat) (timeout : Nat)
    (style : String) (seedDraw : Nat) (now : Int) : Except GenError ImageResponse × Nat :=
  if model ∉ AVAILABLE_MODELS then
    (.error (.validationError (modelNotSupportedMsg model)), 0)
  else if num_images < 1 ∨ num_images > 4 then
    (.error (.validationError "Number of images must be between 1 and 4"), 0)
  else if (pyStrip prompt).length < 3 then
    (.error (.validationError "Prompt must be at least 3 characters long"), 0)
  else
    let payload := buildPayload prompt model num_images aspect_ratio seed timeout style seedDraw
    processResult (make_request_with_retry (transport payload) 3) now

/-- Verdicts of the permission gate, one per distinct user-facing message
category (plus `allowed`). -/
inductive PermVerdict where
  | botDisabled
  | notAuthorized
  | banned
  | allowed
deriving Repr, DecidableEq

/-- `_check_user_permissions` (commands.py lines 27-63 and main.py lines
426-454, identical structure): bot-enabled flag checked first, authorization
second, ban third; the inputs are the results of the three storage lookups. -/
def check_user_permissions (enabled authorized isBanned : Bool) : PermVerdict :=
  if !enabled then .botDisabled
  else if !authorized then .notAuthorized
  else if isBanned then .banned
  else .allowed

/-- `Database.check_rate_limit` (database.py lines 246-260): the storage query
either raises (`Except.error`, modelling any `PyMongoError`) or yields the
user's recorded request timestamps; on success it counts entries with
`timestamp ≥ now − limit_minutes` (the Mongo `$gte` filter, no upper bound) and
admits iff the count is below `max_requests`; on error it returns `true`
("Allow on error"). -/
def check_rate_limit (store : Except String (List Int)) (now limit_minutes : Int)
    (max_requests : Nat) : Bool :=
  match store with
  | .error _ => true
  | .ok entries =>
    let cutoff := now - limit_minutes
    decide ((entries.filter (fun t => decide (cutoff ≤ t))).length < max_requests)

/-- Python `\w` (ASCII approximation, ample for the no-match proofs below). -/
def isWordChar (c : Char) : Bool := c.isAlphanum || c == '_'

/-- Python `re` semantics of the `$` anchor at character position `p` of `s`
(no `re.MULTILINE`): it matches at the end of the string, or just before a
newline that is the last character. -/
def dollarAt (s : List Char) (p : Nat) : Bool :=
  p == s.length || (p + 1 == s.length && s.getD p ' ' == '\n')

/-- Literal characters `lit` match in `s` starting at position `p`. -/
def litAt : List Char → List Char → Nat → Bool
  | [], _, _ => true
  | c :: cs, s, p => decide (p < s.length) && (s.getD p ' ' == c) && litAt cs s (p + 1)

/-- A run of `k` characters of class `cls` starting at position `p` of `s`. -/
def charClassRun (cls : Char → Bool) (s : List Char) (p k : Nat) : Bool :=
  (List.range k).all (fun i => decide (p + i < s.length) && cls (s.getD (p + i) ' '))

/-- Semantics of `re.search` applied to the option patterns of
`_parse_generation_options` (commands.py lines 217, 225, 233), which all have
the shape `$$TAG:(C+)$$` — two `$` anchors, a literal tag with a colon, a
capture of one or more characters of class `C`, two `$` anchors.  A match
exists iff some position `p` satisfies both anchors, the literal, a non-empty
class run of some length `k`, and both trailing anchors; `p` and `k` are
bounded by the string length, making the search decidable. -/
def ddTagSearch (tag : List Char) (cls : Char → Bool) (s : List Char) : Bool :=
  (List.range (s.length + 1)).any (fun p =>
    dollarAt s p && dollarAt s p && litAt tag s p &&
      (List.range (s.length + 2)).any (fun k =>
        decide (1 ≤ k) && charClassRun cls s (p + tag.length) k &&
          dollarAt s (p + tag.length + k) && dollarAt s (p + tag.length + k)))

/-- `Config.DEFAULT_MODEL` default value (config.py line 23). -/
def DEFAULT_MODEL : String := "img3"

/-- `CommandHandler._parse_generation_options` (commands.py lines 210-243).
The three `re.search` calls use the patterns `$$model:(\w+)$$`,
`$$aspect:(\w+)$$` and `$$count:(\d+)$$` verbatim from the source; when a
pattern matches, the source overrides the corresponding default and rewrites
the text via `re.sub` — that branch is not modelled (the embedding returns
`none` there, and `parse_generation_options_spec` proves it is unreachable:
the patterns match no string).  When no pattern matches the result is the
stripped text as prompt with the default model, `"landscape"` and count 1. -/
def parse_generation_options (defaultModel : String) (text : String) :
    Option (String × String × String × Int) :=
  if ddTagSearch "model:".toList isWordChar text.toList
      || ddTagSearch "aspect:".toList isWordChar text.toList
      || ddTagSearch "count:".toList Char.isDigit text.toList then
    none
  else
    some (pyStrip text, defaultModel, "landscape", 1)

/-- Inputs to one `generate_command` invocation: results of the three
permission lookups, of the rate-limit check, and `context.args` (the
whitespace-split words after the command). -/
structure CmdEnv where
  enabled : Bool
  authorized : Bool
  isBanned : Bool
  rateLimitOk : Bool
  args : List String
deriving Repr, DecidableEq

/-- The user-visible outcome of one `generate_command` invocation. -/
inductive CmdOutcome where
  | permissionDenied (v : PermVerdict)
  | rateLimited
  | noPrompt
  | promptTooShort
  | generationFailed (e : GenError)
  | generated (r : ImageResponse)
deriving Repr, DecidableEq

/-- Observable trace of one `generate_command` invocation: its outcome,
whether `db.record_request` ran (a quota slot was consumed), and how many
upstream HTTP calls were made. -/
structure CmdTrace where
  outcome : CmdOutcome
  recordedRequest : Bool
  httpCalls : Nat
deriving Repr, DecidableEq

/-- `CommandHandler.generate_command` (commands.py lines 245-391), with
message delivery and audit logging elided: permission gate, rate-limit check,
empty-args check, option parsing, prompt-length check, `record_request`, then
`generate_images(prompt, model, num_images, aspect_ratio)` with the source
defaults `seed=None`, `timeout=90`, `style="realistic"`.  Returns `none` only
on the unmodelled (provably unreachable) option-pattern match. -/
def generate_command (env : CmdEnv) (transport : Payload → Nat → HttpOutcome)
    (defaultModel : String) (seedDraw : Nat) (now : Int) : Option CmdTrace :=
  match check_user_permissions env.enabled env.authorized env.isBanned with
  | .allowed =>
    if !env.rateLimitOk then some ⟨.rateLimited, false, 0⟩
    else if env.args.isEmpty then some ⟨.noPrompt, false, 0⟩
    else
      let prompt_text := String.intercalate " " env.args
      match parse_generation_options defaultModel prompt_text with
      | none => none
      | some (prompt, model, aspect_ratio, num_images) =>
        if (pyStrip prompt).length < 3 then some ⟨.promptTooShort, false, 0⟩
        else
          match generate_images transport prompt model num_images aspect_ratio none 90 "realistic" seedDraw now with
          | (.ok r, calls) => some ⟨.generated r, true, calls⟩
          | (.error e, calls) => some ⟨.generationFailed e, true, calls⟩
  | v => some ⟨.permissionDenied v, false, 0⟩

/-- Python `str.split(maxsplit=1)`: skip leading whitespace; the first token
runs to the next whitespace; the remainder (with separator whitespace skipped)
is the second element when non-empty. -/
def pySplitOnce (text : String) : List String :=
  let t := text.toList.dropWhile (fun c => c.isWhitespace)
  if t.isEmpty then []
  else
    let first := t.takeWhile (fun c => !c.isWhitespace)
    let rest := (t.dropWhile (fun c => !c.isWhitespace)).dropWhile (fun c => c.isWhitespace)
    if rest.isEmpty then [String.mk first] else [String.mk first, String.mk rest]

/-- The generation request `_handle_generation` (main.py lines 113-177) hands
to `generate_images`: the command verb fixes `model` and `aspect_ratio`,
`num_images` is 1, no seed is passed and the style is `"realistic"`. -/
structure GenRequest where
  model : String
  aspect_ratio : String
  num_images : Int
  seed : Option Nat
  style : String
  prompt : String
deriving Repr, DecidableEq

/-- Prompt extraction of `_handle_generation` (main.py lines 122-133):
`message.text.split(maxsplit=1)`; fewer than two parts is the usage-message
exit (`none`), otherwise the whole second part is the prompt, flags and all. -/
def handle_generation_request (model aspect_ratio text : String) : Option GenRequest :=
  match pySplitOnce text with
  | [_, promptPart] =>
    some { model := model, aspect_ratio := aspect_ratio, num_images := 1,
           seed := none, style := "realistic", prompt := promptPart }
  | _ => none

/-- `MedusaXDBot.flux_command` (main.py lines 93-95): `_handle_generation`
with `model="flux"`, `aspect_ratio="landscape"`. -/
def flux_command (text : String) : Option GenRequest :=
  handle_generation_request "flux" "landscape" text

/-- A successful association-list lookup yields one of the stored values. -/
theorem lookup_mem_snd {l : List (String × String)} {k v : String}
    (h : l.lookup k = some v) : v ∈ l.map Prod.snd := by
  induction l with
  | nil => simp [List.lookup] at h
  | cons hd tl ih =>
    rw [List.lookup] at h
    by_cases hk : (k == hd.fst) = true
    · simp [hk] at h
      simp [← h]
    · simp [hk] at h
      simp [ih h]

/-- No non-newline character can follow a `$` anchor: at a position where `$`
matches, a literal starting with such a character fails. -/
theorem litAt_false_of_dollarAt {s : List Char} {p : Nat} {c : Char} {cs : List Char}
    (hd : dollarAt s p = true) (hc : c ≠ '\n') : litAt (c :: cs) s p = false := by
  rw [litAt]
  rw [dollarAt] at hd
  rcases Bool.or_eq_true_iff.mp hd with h | h
  · have : ¬ p < s.length := by
      have hpe : p = s.length := eq_of_beq h
      omega
    simp [this]
  · rcases Bool.and_eq_true_iff.mp h with ⟨_, h2⟩
    have : s.getD p ' ' = '\n' := by
      have := eq_of_beq h2
      exact this
    rw [this]
    have : ('\n' == c) = false := by
      simp [hc.symm]
    simp [this]

/-- The option patterns of `_parse_generation_options` match no string: their
leading `$` anchors leave no room for the literal tag that must follow. -/
theorem ddTagSearch_eq_false (c : Char) (cs : List Char) (cls : Char → Bool)
    (s : List Char) (hc : c ≠ '\n') :
    ddTagSearch (c :: cs) cls s = false := by
  rw [ddTagSearch]
  rw [List.any_eq_false]
  intro p _
  cases hda : dollarAt s p with
  | false => simp [hda]
  | true => simp [hda, litAt_false_of_dollarAt hda hc]

/-- `_parse_generation_options` always returns the stripped text as the
prompt with the default model, `"landscape"` and count 1: none of its option
patterns can match. -/
theorem parse_generation_options_spec (defaultModel text : String) :
    parse_generation_options defaultModel text
      = some (pyStrip text, defaultModel, "landscape", 1) := by
  rw [parse_generation_options]
  rw [show "model:".toList = 'm' :: "odel:".toList from rfl]
  rw [show "aspect:".toList = 'a' :: "spect:".toList from rfl]
  rw [show "count:".toList = 'c' :: "ount:".toList from rfl]
  rw [ddTagSearch_eq_false 'm' _ _ _ (by decide),
      ddTagSearch_eq_false 'a' _ _ _ (by decide),
      ddTagSearch_eq_false 'c' _ _ _ (by decide)]
  rfl

/-- C5: the permission gate checks in a fixed order — disabled bot first,
unauthorized second, banned third — so a user with botEnabled=false,
authorized=false, banned=true receives the "bot disabled" message, and a
banned-and-unauthorized user (bot enabled) receives the "not authorized"
message, not the "banned" message. -/
theorem permission_gate_order :
    (∀ authorized isBanned, check_user_permissions false authorized isBanned = .botDisabled)
    ∧ (∀ isBanned, check_user_permissions true false isBanned = .notAuthorized)
    ∧ check_user_permissions false false true = .botDisabled
    ∧ check_user_permissions true false true = .notAuthorized := by
  refine ⟨fun _ _ => rfl, fun _ => rfl, rfl, rfl⟩

/-- C6: on a successful storage lookup of entries that all lie in the past,
the rate-limit check counts exactly the entries with timestamp in
[now − windowMinutes, now], lower bound inclusive; with windowMinutes=5,
maxRequests=2 and requests at t=0 and t=1, a check at t=4 returns false and a
check at t=10 returns true. -/
theorem rate_limit_window_inclusive
    (entries : List Int) (now limit_minutes : Int) (max_requests : Nat)
    (hpast : ∀ t ∈ entries, t ≤ now) :
    check_rate_limit (.ok entries) now limit_minutes max_requests
      = decide ((entries.filter
          (fun t => decide (now - limit_minutes ≤ t ∧ t ≤ now))).length < max_requests)
    ∧ check_rate_limit (.ok [0, 1]) 4 5 2 = false
    ∧ check_rate_limit (.ok [0, 1]) 10 5 2 = true := by
  refine ⟨?_, by decide, by decide⟩
  rw [check_rate_limit]
  have hfil : entries.filter (fun t => decide (now - limit_minutes ≤ t))
      = entries.filter (fun t => decide (now - limit_minutes ≤ t ∧ t ≤ now)) := by
    apply List.filter_congr
    intro t ht
    have := hpast t ht
    by_cases hc : now - limit_minutes ≤ t
    · simp [hc, this]
    · simp [hc]
  rw [hfil]

/-- C6 witness: the general window characterisation applied to the concrete
scenario entries [0, 1] at t = 4. -/
theorem rate_limit_window_inclusive_witness :
    check_rate_limit (.ok [0, 1]) 4 5 2
      = decide ((List.filter (fun t => decide (4 - 5 ≤ t ∧ t ≤ 4)) [0, 1]).length < 2)
    ∧ check_rate_limit (.ok [0, 1]) 4 5 2 = false
    ∧ check_rate_limit (.ok [0, 1]) 10 5 2 = true :=
  rate_limit_window_inclusive [0, 1] 4 5 2 (by decide)

/-- C10: the rate limiter fails open — when the storage lookup raises, the
check admits the request whatever the window, limit and history. -/
theorem rate_limit_fails_open (msg : String) (now limit_minutes : Int) (max_requests : Nat) :
    check_rate_limit (.error msg) now limit_minutes max_requests = true := rfl

/-- C7 counterexample: `/flux -r16:9 -srealistic -n2 -seed42 a dragon` is NOT
parsed into {numImages 2, seed 42, prompt "a dragon"}: the `/flux` handler
does no flag parsing, so the request carries numImages 1, no seed, and the
entire tail — flags included — as the prompt. -/
theorem flux_flags_unparsed_counterexample :
    flux_command "/flux -r16:9 -srealistic -n2 -seed42 a dragon"
      = some { model := "flux", aspect_ratio := "landscape", num_images := 1,
               seed := none, style := "realistic",
               prompt := "-r16:9 -srealistic -n2 -seed42 a dragon" }
    ∧ ("-r16:9 -srealistic -n2 -seed42 a dragon" : String) ≠ "a dragon"
    ∧ (1 : Int) ≠ 2
    ∧ (none : Option Nat) ≠ some 42 := by
  refine ⟨rfl, by decide, by decide, by decide⟩

/-- C7 amended: the command `/flux -r16:9 -srealistic -n2 -seed42 a dragon`
parses into a request with model "flux" (from the verb), aspect ratio
"landscape" (the command's fixed default, which happens to be 16:9), style
"realistic" (fixed), numImages 1, no seed, and prompt exactly
"-r16:9 -srealistic -n2 -seed42 a dragon". -/
theorem flux_command_parse :
    flux_command "/flux -r16:9 -srealistic -n2 -seed42 a dragon"
      = some { model := "flux", aspect_ratio := "landscape", num_images := 1,
               seed := none, style := "realistic",
               prompt := "-r16:9 -srealistic -n2 -seed42 a dragon" } := rfl

/-- Against a transport that times out on every call, the retry loop makes
one HTTP call per remaining attempt and ends with the timeout error. -/
theorem retryLoop_timeout (f : Nat → HttpOutcome) (hf : ∀ k, f k = .timeout) :
    ∀ remaining calls, retryLoop f (remaining + 1) calls
      = (.error (.runtimeError "Request timed out after maximum retries"), calls + (remaining + 1)) := by
  intro remaining
  induction remaining with
  | zero =>
    intro calls
    rw [retryLoop, hf]
    rfl
  | succ n ih =>
    intro calls
    rw [retryLoop, hf]
    show retryLoop f (n + 1) (calls + 1) = _
    rw [ih (calls + 1)]
    congr 1
    omega

/-- C1: for every request whose transport raises a timeout on every HTTP call,
`generate_images` (via `_make_request_with_retry`) fails with the
"Request timed out after maximum retries" RuntimeError (the spec's
UpstreamUnavailable) after exactly 3 HTTP calls, the configured maximum. -/
theorem generate_timeout_retry_bound
    (transport : Payload → Nat → HttpOutcome) (prompt model : String) (num_images : Int)
    (aspect_ratio : String) (seed : Option Nat) (timeout : Nat) (style : String)
    (seedDraw : Nat) (now : Int)
    (hT : ∀ pl k, transport pl k = .timeout)
    (hm : model ∈ AVAILABLE_MODELS)
    (hn1 : 1 ≤ num_images) (hn4 : num_images ≤ 4)
    (hp : 3 ≤ (pyStrip prompt).length) :
    generate_images transport prompt model num_images aspect_ratio seed timeout style seedDraw now
      = (.error (.runtimeError "Request timed out after maximum retries"), 3) := by
  have h1 : ¬ model ∉ AVAILABLE_MODELS := not_not_intro hm
  have h2 : ¬ (num_images < 1 ∨ num_images > 4) := by omega
  have h3 : ¬ (pyStrip prompt).length < 3 := by omega
  rw [generate_images, if_neg h1, if_neg h2, if_neg h3]
  show processResult (make_request_with_retry
    (transport (buildPayload prompt model num_images aspect_ratio seed timeout style seedDraw)) 3) now = _
  rw [make_request_with_retry,
    retryLoop_timeout (transport (buildPayload prompt model num_images aspect_ratio seed timeout style seedDraw)) (hT _) 2 0]
  rfl

/-- C1 witness: the retry bound at a concrete request and an always-timeout
transport. -/
theorem generate_timeout_retry_bound_witness :
    generate_images (fun _ _ => .timeout) "a dragon" "flux" 1 "landscape" (some 42) 90 "realistic" 7 0
      = (.error (.runtimeError "Request timed out after maximum retries"), 3) :=
  generate_timeout_retry_bound (fun _ _ => .timeout) "a dragon" "flux" 1 "landscape"
    (some 42) 90 "realistic" 7 0 (fun _ _ => rfl) (by decide) (by decide) (by decide) (by decide)

/-- C2 counterexample: a transport that always answers HTTP 400 with a JSON
body that has no "error" key does NOT cause an immediate single-call failure —
the 400 branch raises nothing in that case, the loop retries, and after 3 HTTP
calls the client fails with the generic "Failed to generate image after
maximum retries" RuntimeError. -/
theorem http400_no_error_key_is_retried :
    generate_images (fun _ _ => .httpError 400 .jsonNoError) "a dragon" "flux" 1 "landscape"
        (some 42) 90 "realistic" 7 0
      = (.error (.runtimeError "Failed to generate image after maximum retries"), 3)
    ∧ (3 : Nat) ≠ 1 := by
  refine ⟨rfl, by decide⟩

/-- The immediate (non-retried) failure the retry loop raises for status 400
(with a body that is non-JSON or carries an "error" key), 401, 403, and any
other non-retryable status such as 404. -/
def immediateHttpFailure (status : Nat) : GenError :=
  if status = 400 then .validationError "Invalid request parameters - check your prompt and options"
  else if status = 401 then .runtimeError "API authentication failed"
  else if status = 403 then .runtimeError "API access forbidden - check permissions"
  else .runtimeError ("HTTP error " ++ toString status)

/-- C2 amended: for every request whose first HTTP call returns status 401,
403 or 404, or status 400 whose error body is non-JSON or contains an "error"
field, `generate_images` fails immediately with exactly one HTTP call (400 as
ValidationError, 401/403/404 as a RuntimeError, the spec's UpstreamRejected).
A 400 whose body parses as JSON without an "error" field is instead retried
(see the counterexample). -/
theorem generate_nonretryable_single_call
    (transport : Payload → Nat → HttpOutcome) (prompt model : String) (num_images : Int)
    (aspect_ratio : String) (seed : Option Nat) (timeout : Nat) (style : String)
    (seedDraw : Nat) (now : Int) (status : Nat) (body : ErrorBody)
    (hT : ∀ pl, transport pl 0 = .httpError status body)
    (hs : status = 400 ∨ status = 401 ∨ status = 403 ∨ status = 404)
    (hb : status = 400 → body ≠ .jsonNoError)
    (hm : model ∈ AVAILABLE_MODELS)
    (hn1 : 1 ≤ num_images) (hn4 : num_images ≤ 4)
    (hp : 3 ≤ (pyStrip prompt).length) :
    generate_images transport prompt model num_images aspect_ratio seed timeout style seedDraw now
      = (.error (immediateHttpFailure status), 1) := by
  have h1 : ¬ model ∉ AVAILABLE_MODELS := not_not_intro hm
  have h2 : ¬ (num_images < 1 ∨ num_images > 4) := by omega
  have h3 : ¬ (pyStrip prompt).length < 3 := by omega
  rw [generate_images, if_neg h1, if_neg h2, if_neg h3]
  show processResult (make_request_with_retry
    (transport (buildPayload prompt model num_images aspect_ratio seed timeout style seedDraw)) 3) now = _
  rw [make_request_with_retry, retryLoop, hT]
  rcases hs with h4 | h4 | h4 | h4 <;> subst h4
  · have hbne := hb rfl
    cases body with
    | jsonNoError => exact absurd rfl hbne
    | notJson => rfl
    | jsonWithError msg => rfl
  · rfl
  · rfl
  · rfl

/-- C2 amended witness: a transport answering 401 on the first call causes
exactly one HTTP call and the immediate authentication failure. -/
theorem generate_nonretryable_single_call_witness :
    generate_images (fun _ _ => .httpError 401 .jsonNoError) "a dragon" "flux" 1 "landscape"
        (some 42) 90 "realistic" 7 0
      = (.error (immediateHttpFailure 401), 1) :=
  generate_nonretryable_single_call (fun _ _ => .httpError 401 .jsonNoError) "a dragon" "flux" 1
    "landscape" (some 42) 90 "realistic" 7 0 401 .jsonNoError (fun _ => rfl)
    (Or.inr (Or.inl rfl)) (by decide) (by decide) (by decide) (by decide) (by decide)

/-- A result is a Python `ValueError` (the spec's ValidationError). -/
def isValidationError : Except GenError ImageResponse → Bool
  | .error (.validationError _) => true
  | _ => false

/-- C4: for every prompt whose trimmed length is below 3, and for every
numImages outside [1, 4], `generate_images` fails with a ValidationError and
issues zero HTTP requests, whatever the transport would answer. -/
theorem generate_prevalidation_no_network
    (transport : Payload → Nat → HttpOutcome) (prompt model : String) (num_images : Int)
    (aspect_ratio : String) (seed : Option Nat) (timeout : Nat) (style : String)
    (seedDraw : Nat) (now : Int)
    (h : (pyStrip prompt).length < 3 ∨ num_images < 1 ∨ 4 < num_images) :
    isValidationError (generate_images transport prompt model num_images aspect_ratio seed
        timeout style seedDraw now).1 = true
    ∧ (generate_images transport prompt model num_images aspect_ratio seed
        timeout style seedDraw now).2 = 0 := by
  rw [generate_images]
  by_cases h1 : model ∉ AVAILABLE_MODELS
  · rw [if_pos h1]
    exact ⟨rfl, rfl⟩
  · rw [if_neg h1]
    by_cases h2 : num_images < 1 ∨ num_images > 4
    · rw [if_pos h2]
      exact ⟨rfl, rfl⟩
    · rw [if_neg h2]
      have h3 : (pyStrip prompt).length < 3 := by
        rcases h with h | h | h
        · exact h
        · exact absurd (Or.inl h) h2
        · exact absurd (Or.inr h) h2
      rw [if_pos h3]
      exact ⟨rfl, rfl⟩

/-- C4 witness: a two-character prompt fails validation with zero HTTP calls
even with a transport that would succeed. -/
theorem generate_prevalidation_no_network_witness :
    isValidationError (generate_images (fun _ _ => .ok ⟨some 5, some [⟨some "http://img"⟩]⟩)
        "  hi  " "flux" 1 "landscape" none 90 "realistic" 7 0).1 = true
    ∧ (generate_images (fun _ _ => .ok ⟨some 5, some [⟨some "http://img"⟩]⟩)
        "  hi  " "flux" 1 "landscape" none 90 "realistic" 7 0).2 = 0 :=
  generate_prevalidation_no_network (fun _ _ => .ok ⟨some 5, some [⟨some "http://img"⟩]⟩)
    "  hi  " "flux" 1 "landscape" none 90 "realistic" 7 0 (by decide)

/-- C3: `generate_images` never returns a result with zero images.  Part one:
whenever the retry loop yields a 200 response whose data entries all lack a
non-empty url (such as data [{url: ""}, {}]), the call fails with the
"No valid images in API response" RuntimeError (the spec's MalformedResponse).
Part two: every returned `ImageResponse` has a non-empty image list whose
entries all carry a non-empty url. -/
theorem generate_no_empty_success
    (transport : Payload → Nat → HttpOutcome) (prompt model : String) (num_images : Int)
    (aspect_ratio : String) (seed : Option Nat) (timeout : Nat) (style : String)
    (seedDraw : Nat) (now : Int)
    (hm : model ∈ AVAILABLE_MODELS)
    (hn1 : 1 ≤ num_images) (hn4 : num_images ≤ 4)
    (hp : 3 ≤ (pyStrip prompt).length) :
    (∀ resp calls,
      make_request_with_retry
          (transport (buildPayload prompt model num_images aspect_ratio seed timeout style seedDraw)) 3
        = (.ok resp, calls) →
      (resp.data.getD []).all (fun item => item.url.getD "" == "") = true →
      generate_images transport prompt model num_images aspect_ratio seed timeout style seedDraw now
        = (.error (.runtimeError "No valid images in API response"), calls))
    ∧ (∀ r calls,
      generate_images transport prompt model num_images aspect_ratio seed timeout style seedDraw now
        = (.ok r, calls) →
      r.data ≠ [] ∧ ∀ img ∈ r.data, img.url.getD "" ≠ "") := by
  have h1 : ¬ model ∉ AVAILABLE_MODELS := not_not_intro hm
  have h2 : ¬ (num_images < 1 ∨ num_images > 4) := by omega
  have h3 : ¬ (pyStrip prompt).length < 3 := by omega
  have hgen : generate_images transport prompt model num_images aspect_ratio seed timeout style seedDraw now
      = processResult (make_request_with_retry
          (transport (buildPayload prompt model num_images aspect_ratio seed timeout style seedDraw)) 3) now := by
    rw [generate_images, if_neg h1, if_neg h2, if_neg h3]
  constructor
  · intro resp calls hmr hall
    rw [hgen, hmr, processResult]
    have hfil : (resp.data.getD []).filter (fun item => item.url.getD "" != "") = [] := by
      rw [List.filter_eq_nil_iff]
      intro a ha
      have hu : (a.url.getD "" == "") = true := List.all_eq_true.mp hall a ha
      simp [bne, hu]
    rw [hfil]
    rfl
  · intro r calls hok
    rw [hgen] at hok
    rcases hmr : make_request_with_retry
        (transport (buildPayload prompt model num_images aspect_ratio seed timeout style seedDraw)) 3
      with ⟨res, calls0⟩
    rw [hmr] at hok
    cases res with
    | error e => simp [processResult] at hok
    | ok result =>
      rw [processResult] at hok
      by_cases hemp : ((result.data.getD []).filter (fun item => item.url.getD "" != "")).isEmpty = true
      · rw [if_pos hemp] at hok
        simp at hok
      · rw [if_neg hemp] at hok
        have hre : r = { created := result.created.getD now
                         data := ((result.data.getD []).filter
                           (fun item => item.url.getD "" != "")).map
                             (fun item => { url := item.url, b64_json := none }) } := by
          have := congrArg Prod.fst hok
          simp at this
          exact this.symm
        subst hre
        have hne : (result.data.getD []).filter (fun item => item.url.getD "" != "") ≠ [] := by
          simpa [List.isEmpty_iff] using hemp
        refine ⟨by simpa using hne, ?_⟩
        intro img himg
        simp only [List.mem_map] at himg
        obtain ⟨item, hitem, hi⟩ := himg
        have hprop := (List.mem_filter.mp hitem).2
        rw [← hi]
        simpa [bne] using hprop

/-- C3 witness: a 200 response with data [{url: ""}, {}] yields the
MalformedResponse failure, not an empty success. -/
theorem generate_no_empty_success_witness :
    generate_images (fun _ _ => .ok ⟨none, some [⟨some ""⟩, ⟨none⟩]⟩)
        "a dragon" "flux" 1 "landscape" (some 42) 90 "realistic" 7 0
      = (.error (.runtimeError "No valid images in API response"), 1) :=
  (generate_no_empty_success (fun _ _ => .ok ⟨none, some [⟨some ""⟩, ⟨none⟩]⟩)
      "a dragon" "flux" 1 "landscape" (some 42) 90 "realistic" 7 0
      (by decide) (by decide) (by decide) (by decide)).1
    ⟨none, some [⟨some ""⟩, ⟨none⟩]⟩ 1 rfl rfl

/-- C8: for every aspect-ratio string and every style string, including
unrecognized ones, a request with valid model, count and prompt never fails
on that account: it always reaches the network phase, and the payload it
posts draws its size, aspect_ratio and style values from the fixed
SIZE_MAPPING, ASPECT_RATIOS and STYLE_MAPPING tables (unknown ratios fall
back to "landscape", unknown styles to "realistic"). -/
theorem ratio_style_fallback_safe
    (transport : Payload → Nat → HttpOutcome) (prompt model : String) (num_images : Int)
    (aspect_ratio : String) (seed : Option Nat) (timeout : Nat) (style : String)
    (seedDraw : Nat) (now : Int)
    (hm : model ∈ AVAILABLE_MODELS)
    (hn1 : 1 ≤ num_images) (hn4 : num_images ≤ 4)
    (hp : 3 ≤ (pyStrip prompt).length) :
    (buildPayload prompt model num_images aspect_ratio seed timeout style seedDraw).size
        ∈ SIZE_MAPPING.map Prod.snd
    ∧ (buildPayload prompt model num_images aspect_ratio seed timeout style seedDraw).aspect_ratio
        ∈ ASPECT_RATIOS.map Prod.snd
    ∧ (buildPayload prompt model num_images aspect_ratio seed timeout style seedDraw).style
        ∈ STYLE_MAPPING.map Prod.snd
    ∧ generate_images transport prompt model num_images aspect_ratio seed timeout style seedDraw now
        = processResult (make_request_with_retry
            (transport (buildPayload prompt model num_images aspect_ratio seed timeout style seedDraw)) 3) now := by
  have h1 : ¬ model ∉ AVAILABLE_MODELS := not_not_intro hm
  have h2 : ¬ (num_images < 1 ∨ num_images > 4) := by omega
  have h3 : ¬ (pyStrip prompt).length < 3 := by omega
  refine ⟨?_, ?_, ?_, ?_⟩
  · show (SIZE_MAPPING.lookup (resolveAspect aspect_ratio)).getD "1344x768" ∈ SIZE_MAPPING.map Prod.snd
    cases hl : SIZE_MAPPING.lookup (resolveAspect aspect_ratio) with
    | none => decide
    | some v => exact lookup_mem_snd hl
  · show (ASPECT_RATIOS.lookup (resolveAspect aspect_ratio)).getD "" ∈ ASPECT_RATIOS.map Prod.snd
    rw [resolveAspect]
    by_cases h : (ASPECT_RATIOS.lookup aspect_ratio).isSome = true
    · rw [if_pos h]
      obtain ⟨v, hv⟩ := Option.isSome_iff_exists.mp h
      rw [hv]
      exact lookup_mem_snd hv
    · rw [if_neg h]
      decide
  · show (STYLE_MAPPING.lookup style).getD "realistic" ∈ STYLE_MAPPING.map Prod.snd
    cases hl : STYLE_MAPPING.lookup style with
    | none => decide
    | some v => exact lookup_mem_snd hl
  · rw [generate_images, if_neg h1, if_neg h2, if_neg h3]

/-- C8 witness: a bogus aspect ratio and a bogus style at a concrete request
still produce table values (size 1344x768, ratio 16:9, style realistic) and
reach the network phase. -/
theorem ratio_style_fallback_safe_witness :
    (buildPayload "a dragon" "flux" 2 "bogus" none 90 "weird" 7).size ∈ SIZE_MAPPING.map Prod.snd
    ∧ (buildPayload "a dragon" "flux" 2 "bogus" none 90 "weird" 7).aspect_ratio ∈ ASPECT_RATIOS.map Prod.snd
    ∧ (buildPayload "a dragon" "flux" 2 "bogus" none 90 "weird" 7).style ∈ STYLE_MAPPING.map Prod.snd
    ∧ generate_images (fun _ _ => .timeout) "a dragon" "flux" 2 "bogus" none 90 "weird" 7 0
        = processResult (make_request_with_retry
            ((fun (_ : Payload) (_ : Nat) => HttpOutcome.timeout) (buildPayload "a dragon" "flux" 2 "bogus" none 90 "weird" 7)) 3) 0 :=
  ratio_style_fallback_safe (fun _ _ => .timeout) "a dragon" "flux" 2 "bogus" none 90 "weird" 7 0
    (by decide) (by decide) (by decide) (by decide)

/-- C9: in CommandHandler, `_parse_generation_options` returns every input
stripped and otherwise untouched with the default model, "landscape" and
count 1 (its [model:], [aspect:] and [count:] patterns — written with `$$`
anchors — match no string); the default model "img3" is not among the
client's AVAILABLE_MODELS; hence every `generate_command` invocation that
passes the permission, rate-limit and prompt-length checks records a quota
slot and then fails with the model ValidationError after zero HTTP calls —
no generation ever succeeds through this pipeline. -/
theorem default_pipeline_model_error
    (env : CmdEnv) (transport : Payload → Nat → HttpOutcome) (seedDraw : Nat) (now : Int)
    (he : env.enabled = true) (ha : env.authorized = true) (hb : env.isBanned = false)
    (hr : env.rateLimitOk = true) (hargs : env.args.isEmpty = false)
    (hlen : ¬ (pyStrip (pyStrip (String.intercalate " " env.args))).length < 3) :
    (∀ text dm, parse_generation_options dm text = some (pyStrip text, dm, "landscape", 1))
    ∧ DEFAULT_MODEL ∉ AVAILABLE_MODELS
    ∧ generate_command env transport DEFAULT_MODEL seedDraw now
        = some ⟨.generationFailed (.validationError (modelNotSupportedMsg "img3")), true, 0⟩ := by
  refine ⟨fun text dm => parse_generation_options_spec dm text, by decide, ?_⟩
  rw [generate_command, he, ha, hb, hr, hargs]
  simp only [parse_generation_options_spec, check_user_permissions, Bool.not_true,
    Bool.not_false, if_true, if_false, Bool.false_eq_true, ite_false, ite_true]
  rw [if_neg hlen]
  rw [generate_images, if_pos (by decide : DEFAULT_MODEL ∉ AVAILABLE_MODELS)]
  rfl

/-- C9 witness: a fully authorized, unbanned, within-quota user issuing
`/generate a dragon` under the default configuration consumes a quota slot
and hits the "img3 not supported" ValidationError with zero HTTP calls. -/
theorem default_pipeline_model_error_witness :
    generate_command ⟨true, true, false, true, ["a", "dragon"]⟩ (fun _ _ => .timeout)
        DEFAULT_MODEL 7 0
      = some ⟨.generationFailed (.validationError (modelNotSupportedMsg "img3")), true, 0⟩ :=
  (default_pipeline_model_error ⟨true, true, false, true, ["a", "dragon"]⟩ (fun _ _ => .timeout) 7 0
    rfl rfl rfl rfl rfl (by decide)).2.2

end MedusaXD
